import Mathlib

/-!
Shallow embedding of the dynamic configuration resolver of the repository
(file src/profile-service/src/drivers/etcd.driver.ts, class EtcdDriver).
JavaScript string-or-absent values are modelled as Option String, with the
JavaScript truthiness convention (null, undefined and the empty string are
falsy).  The etcd store, the ambient process environment and the resolved
parameter store are modelled as maps from String to Option String.  The put
calls issued to the coordination service are recorded as a trace list.
-/

namespace NextChat

/-- Truthiness of a JavaScript string-or-absent value: null or undefined and
the empty string are falsy, every other string is truthy. -/
def jsTruthy : Option String → Bool
  | none => false
  | some s => s != ""

/-- JavaScript a || b on string-or-absent values: b when a is falsy. -/
def jsOr (a b : Option String) : Option String :=
  if jsTruthy a then a else b

/-- JavaScript template-literal rendering of a possibly absent string. -/
def jsStr : Option String → String
  | none => "undefined"
  | some s => s

/-- Node coerces every value assigned to a process.env property to a string;
assigning undefined therefore stores the truthy string rendered as undefined,
not an absence. -/
def jsEnvAssign (v : Option String) : Option String := some (jsStr v)

/-- JavaScript String.prototype.split with a one-character separator, on a
list of characters. -/
def splitAux (sep : Char) : List Char → List (List Char)
  | [] => [[]]
  | c :: cs =>
    let r := splitAux sep cs
    if c = sep then [] :: r
    else
      match r with
      | [] => [[c]]
      | h :: t => (c :: h) :: t

/-- JavaScript String.prototype.split with a one-character separator. -/
def jsSplit (s : String) (sep : Char) : List String :=
  (splitAux sep s.data).map String.mk

/-- Interface IETCDPropertyDefenition of etcd.driver.ts (lines 253-263):
a custom etcd path and an optional default value. -/
structure IETCDPropertyDefenition where
  etcdPath : Option String
  defaultValue : Option String
deriving DecidableEq

/-- One entry of the envParams manifest (IETCDConfigurations, lines 265-275):
either a bare string literal, which acts as the default value, or a property
definition object. -/
inductive ManifestEntry where
  | str : String → ManifestEntry
  | obj : IETCDPropertyDefenition → ManifestEntry
deriving DecidableEq

/-- Interface IETCDDriverConfigs of etcd.driver.ts (lines 219-251). -/
structure IETCDDriverConfigs where
  dirname : Option String
  genKeys : Bool
  overrideSysObj : Bool
  watchKeys : Bool
  overrideNotInScope : Bool
  genEnvDirectories : Bool
deriving DecidableEq

/-- A string-keyed table with possibly absent entries, used for process.env,
for the self-managed envParams copy and for the contents of the etcd store. -/
abbrev StrMap := String → Option String

/-- Point update of a table; writing none models deletion of the key. -/
def StrMap.update (m : StrMap) (k : String) (v : Option String) : StrMap :=
  fun q => if q = k then v else m q

/-- The everywhere-absent table. -/
def StrMap.empty : StrMap := fun _ => none

/-- The observable state of the driver: the ambient process.env table, the
self-managed envParams copy, the contents of the etcd store, the trace of put
calls issued to the store, and the trace of watch registrations. -/
structure DriverState where
  env : StrMap
  envParams : StrMap
  store : StrMap
  puts : List (String × Option String)
  watches : List (String × String)

/-- getPropertySetting (lines 96-101): the property definition object when the
manifest entry is an object, undefined when it is a bare string. -/
def getPropertySetting : ManifestEntry → Option IETCDPropertyDefenition
  | .str _ => none
  | .obj d => some d

/-- strDefaultVal (lines 172-173).  The source compares the manifest entry
against the string literal [object Object] with strict inequality and only
then calls toString on it.  For a bare string the comparison is an honest
string comparison; for a definition object the strict comparison between an
object and a string is always true, and toString on the object produces the
string [object Object]. -/
def strDefaultVal : ManifestEntry → Option String
  | .str s => if s = "[object Object]" then none else some s
  | .obj _ => some "[object Object]"

/-- getEnvironemntDir (lines 153-157): the per-environment subdirectory
segment, present only when genEnvDirectories is set and NODE_ENV is truthy. -/
def getEnvironemntDir (cfg : IETCDDriverConfigs) (nodeEnv : Option String) : String :=
  if cfg.genEnvDirectories && jsTruthy nodeEnv then jsStr nodeEnv ++ "/" else ""

/-- generatedEtcdPath (line 167): the derived key path for a parameter. -/
def generatedEtcdPath (cfg : IETCDDriverConfigs) (nodeEnv : Option String)
    (propertyName : String) : String :=
  "/" ++ jsStr cfg.dirname ++ "/" ++ getEnvironemntDir cfg nodeEnv ++ propertyName

/-- The expression propertySetting?.etcdPath || generatedEtcdPath
(line 168). -/
def etcdEntryNameOf (ps : Option IETCDPropertyDefenition) (generated : String) : String :=
  (jsOr (ps.bind IETCDPropertyDefenition.etcdPath) (some generated)).getD generated

/-- etcdEntryName as computed for one manifest entry (lines 165-168). -/
def etcdEntryName (cfg : IETCDDriverConfigs) (nodeEnv : Option String)
    (propertyName : String) (entry : ManifestEntry) : String :=
  etcdEntryNameOf (getPropertySetting entry) (generatedEtcdPath cfg nodeEnv propertyName)

/-- isInScope (lines 201-215). -/
def isInScope (keyName : String) : Bool :=
  let splittedKey : List String := jsSplit keyName '/'
  if 3 ≤ splittedKey.length then
    if splittedKey.length == 3 && (splittedKey.getLastD "" != "") then true
    else decide (3 < splittedKey.length)
  else false

/-- One iteration of the initializeProcess loop (lines 164-195) for the
property propertyName whose manifest entry is entry, returning the state after
the iteration and the exception it throws, when it throws one.  The mirror
assignment of line 176 goes through the process.env string coercion
(jsEnvAssign); the self-managed copy on line 181 re-reads process.env after
that assignment; the put call on line 190 writes the value read back from
process.env, and when that value is undefined the etcd3 value builder throws
a TypeError before any put reaches the store. -/
def resolveOne (cfg : IETCDDriverConfigs) (nodeEnv : Option String)
    (st : DriverState) (propertyName : String) (entry : ManifestEntry) :
    DriverState × Option String :=
  let propertySetting := getPropertySetting entry
  let key := etcdEntryName cfg nodeEnv propertyName entry
  let etcdVal := st.store key
  let dv := propertySetting.bind IETCDPropertyDefenition.defaultValue
  let sdv := strDefaultVal entry
  let env1 :=
    if cfg.overrideSysObj then
      st.env.update propertyName (jsEnvAssign (jsOr etcdVal (jsOr (st.env propertyName) (jsOr dv sdv))))
    else st.env
  let envParams1 :=
    st.envParams.update propertyName (jsOr etcdVal (jsOr (env1 propertyName) (jsOr dv sdv)))
  let watches1 :=
    if cfg.watchKeys then st.watches ++ [(key, propertyName)] else st.watches
  let doPut := !jsTruthy etcdVal && cfg.genKeys &&
      (cfg.overrideNotInScope || isInScope key)
  let res :=
    match doPut, env1 propertyName with
    | true, none => (st.store, st.puts, some "TypeError: value must not be undefined")
    | true, some v => (st.store.update key (some v), st.puts ++ [(key, some v)], none)
    | false, _ => (st.store, st.puts, none)
  (⟨env1, envParams1, res.1, res.2.1, watches1⟩, res.2.2)

/-- initializeProcess (lines 163-196): iterate over the manifest entries in
order; a throw inside one iteration aborts the remaining iterations and
propagates, carrying the state mutated so far. -/
def initializeProcess (cfg : IETCDDriverConfigs) (nodeEnv : Option String) :
    List (String × ManifestEntry) → DriverState → DriverState × Option String
  | [], st => (st, none)
  | pe :: manifest, st =>
    match resolveOne cfg nodeEnv st pe.1 pe.2 with
    | (st1, none) => initializeProcess cfg nodeEnv manifest st1
    | (st1, some err) => (st1, some err)

/-- overrideDefaultConfigs (lines 60-65): the user driver configs are merged
over the defaults; the default dirname is the ETCD_SERVICE_NAME ambient
environment variable. -/
def overrideDefaultConfigs (etcdServiceName : Option String)
    (user : IETCDDriverConfigs) : IETCDDriverConfigs :=
  { user with dirname := match user.dirname with
      | none => etcdServiceName
      | some d => some d }

/-- Outcome of one call to the top-level initialization entry point: the
resulting driver state, the messages logged by the catch handler, and the
rejection carried by the returned promise, when there is one. -/
structure InitOutcome where
  state : DriverState
  logged : List String
  rejected : Option String

/-- The top-level initialization entry point of the driver (lines 73-88 of the
source; the source names it with the bare word that Lean reserves as a
keyword, so the embedding suffixes the class name).  The whole body runs
inside a try/catch whose handler only logs the exception, so the returned
promise always resolves: rejected is none in every branch.  A precondition
throw (lines 79-82) happens before the loop and leaves the state untouched; a
throw inside the loop is caught the same way and keeps the mutations already
performed. -/
def initializeDriver (etcdServiceName : Option String) (cfg : IETCDDriverConfigs)
    (nodeEnv : Option String) (manifest : List (String × ManifestEntry))
    (st : DriverState) : InitOutcome :=
  let merged := overrideDefaultConfigs etcdServiceName cfg
  if !jsTruthy merged.dirname then
    ⟨st, ["initialize() ex: ETCD_SERVICE_NAME not found in environment variables"], none⟩
  else if manifest.isEmpty then
    ⟨st, ["initialize() ex: Configs arg does not contains any properties"], none⟩
  else
    match initializeProcess merged nodeEnv manifest st with
    | (st1, none) => ⟨st1, [], none⟩
    | (st1, some err) => ⟨st1, ["initialize() ex: " ++ err], none⟩

/-- updateEnv (lines 110-118): write the value into process.env when
overrideSysObj is set, and always into the self-managed envParams copy. -/
def updateEnv (cfg : IETCDDriverConfigs) (st : DriverState)
    (propertyName : String) (val : Option String) : DriverState :=
  { st with
    env := if cfg.overrideSysObj then st.env.update propertyName val else st.env,
    envParams := st.envParams.update propertyName val }

/-- The per-key watch subscription created by watchForChanges (lines 126-148):
the watched key, the parameter name it maps to, and whether the subscription
is still active. -/
structure WatchState where
  key : String
  propertyName : String
  active : Bool
deriving DecidableEq

/-- A notification delivered on a watch stream: a put with the new value, or a
delete. -/
inductive WatchEvent where
  | put : String → WatchEvent
  | del : WatchEvent
deriving DecidableEq

/-- The two watcher callbacks registered by watchForChanges (lines 131-146).
The put handler calls updateEnv with the new value.  The delete handler
removes the entry from envParams and, when overrideSysObj is set, from
process.env, and then cancels the watcher, so the subscription becomes
inactive.  The etcd library delivers events only while the subscription is
active. -/
def applyWatchEvent (cfg : IETCDDriverConfigs) (st : DriverState) (w : WatchState) :
    WatchEvent → DriverState × WatchState
  | .put v =>
    if w.active then (updateEnv cfg st w.propertyName (some v), w) else (st, w)
  | .del =>
    if w.active then
      ({ st with
          env := if cfg.overrideSysObj then st.env.update w.propertyName none else st.env,
          envParams := st.envParams.update w.propertyName none },
        { w with active := false })
    else (st, w)

/-- Modelled from the spec wording of the fallback chain (section 4.2 step 4):
the first non-empty value wins, in the order remote value, ambient
environment value, property defaultValue, manifest literal default. -/
def specFallback (remote ambient dflt lit : Option String) : Option String :=
  jsOr remote (jsOr ambient (jsOr dflt lit))

/-- Modelled from the spec wording: the manifest literal default of an entry
is the bare string itself, and an object entry carries no literal default. -/
def specLiteralDefault : ManifestEntry → Option String
  | .str s => some s
  | .obj _ => none

/-- Last manifest entry carrying a given parameter name, if any; this is the
entry whose resolution survives the left-to-right iteration of
initializeProcess. -/
def lastDef : List (String × ManifestEntry) → String → Option ManifestEntry
  | [], _ => none
  | pe :: M, q =>
    match lastDef M q with
    | some e => some e
    | none => if pe.1 = q then some pe.2 else none

/-! Concrete fixtures used by the witnesses and counterexamples. -/

/-- The empty driver state: empty ambient environment, empty resolved
parameter copy, empty store, no traces. -/
def st0 : DriverState := ⟨StrMap.empty, StrMap.empty, StrMap.empty, [], []⟩

/-- An ambient environment holding A under the parameter name P. -/
def envA : StrMap := fun q => if q = "P" then some "A" else none

/-- A store holding R under the derived key of the parameter P. -/
def storeR : StrMap := fun k => if k = "/svc/P" then some "R" else none

/-- State with remote value R and ambient value A for the parameter P. -/
def stR : DriverState := ⟨envA, StrMap.empty, storeR, [], []⟩

/-- State with ambient value A for the parameter P and no remote value. -/
def stA : DriverState := ⟨envA, StrMap.empty, StrMap.empty, [], []⟩

/-- Driver configs with directory svc and every flag off. -/
def cfgPlain : IETCDDriverConfigs := ⟨some "svc", false, false, false, false, false⟩

/-- Driver configs with directory svc and per-environment directories on. -/
def cfgEnvDirs : IETCDDriverConfigs := ⟨some "svc", false, false, false, false, true⟩

/-- Driver configs of the end-to-end example of the spec: directory profile,
genKeys and overrideSysObj on. -/
def cfgC4ex : IETCDDriverConfigs := ⟨some "profile", true, true, false, false, false⟩

/-- Same as cfgC4ex with out-of-scope writes allowed. -/
def cfgC4ov : IETCDDriverConfigs := ⟨some "profile", true, true, false, true, false⟩

/-- Driver configs with no directory name anywhere. -/
def cfgNoDir : IETCDDriverConfigs := ⟨none, false, false, false, false, false⟩

/-- Driver configs with directory svc and only genKeys on. -/
def cfgGen : IETCDDriverConfigs := ⟨some "svc", true, false, false, false, false⟩

/-- Driver configs with directory svc, genKeys, overrideSysObj and watchKeys
on. -/
def cfgFull : IETCDDriverConfigs := ⟨some "svc", true, true, true, false, false⟩

/-- Driver configs with directory svc and only overrideSysObj on. -/
def cfgMirror : IETCDDriverConfigs := ⟨some "svc", false, true, false, false, false⟩

/-- Driver configs with directory svc, genKeys, overrideSysObj and
overrideNotInScope on. -/
def cfgC9ex : IETCDDriverConfigs := ⟨some "svc", true, true, false, true, false⟩

/-- A definition entry with no explicit path and default value D. -/
def entryD : ManifestEntry := .obj ⟨none, some "D"⟩

/-- The definition entry of the end-to-end example of the spec: explicit path
mongodb_uri, no default value. -/
def entryC4ex : ManifestEntry := .obj ⟨some "mongodb_uri", none⟩

/-- A definition entry with the explicit out-of-scope path /x. -/
def entryOut : ManifestEntry := .obj ⟨some "/x", some "D"⟩

/-- A one-entry manifest mapping P to the bare literal x. -/
def manifest1 : List (String × ManifestEntry) := [("P", .str "x")]

/-- A one-entry manifest mapping P to the bare literal d. -/
def manifestD : List (String × ManifestEntry) := [("P", .str "d")]

/-- A one-entry manifest mapping P to the bare empty-string literal. -/
def manifestEmptyStr : List (String × ManifestEntry) := [("P", .str "")]

/-- Driver configs with directory svc, genKeys and overrideSysObj on. -/
def cfgC8ex : IETCDDriverConfigs := ⟨some "svc", true, true, false, false, false⟩

/-- An active watch subscription on the key of the parameter P. -/
def wActive : WatchState := ⟨"/svc/P", "P", true⟩

/-! Helper lemmas. -/

theorem jsOr_of_truthy (a b : Option String) (h : jsTruthy a = true) : jsOr a b = a := by
  simp [jsOr, h]

theorem jsOr_of_falsy (a b : Option String) (h : jsTruthy a = false) : jsOr a b = b := by
  simp [jsOr, h]

theorem jsEnvAssign_of_truthy (a : Option String) (h : jsTruthy a = true) :
    jsEnvAssign a = a := by
  cases a
  · simp [jsTruthy] at h
  · rfl

/-- The line-181 re-read of process.env after the coerced line-176 assignment
collapses to the coerced flat chain. -/
theorem jsOr_mirror_assign (a b x : Option String) :
    jsOr a (jsOr (jsEnvAssign (jsOr a (jsOr b x))) x) = jsEnvAssign (jsOr a (jsOr b x)) := by
  cases ha : jsTruthy a
  · simp only [jsOr_of_falsy _ _ ha]
    cases hE : jsTruthy (jsEnvAssign (jsOr b x))
    · have hbx : jsOr b x = some "" := by
        rcases hbx0 : jsOr b x with _ | s
        · rw [hbx0] at hE
          simp [jsEnvAssign, jsStr, jsTruthy] at hE
        · rw [hbx0] at hE
          simp [jsEnvAssign, jsStr, jsTruthy] at hE
          rw [hE]
      have hx : x = some "" := by
        cases hb : jsTruthy b
        · rw [jsOr_of_falsy _ _ hb] at hbx
          exact hbx
        · rw [jsOr_of_truthy _ _ hb] at hbx
          rw [hbx] at hb
          simp [jsTruthy] at hb
      rw [jsOr_of_falsy _ _ hE, hbx, hx]
      rfl
    · rw [jsOr_of_truthy _ _ hE]
  · simp only [jsOr_of_truthy _ _ ha]
    exact (jsEnvAssign_of_truthy a ha).symm

theorem StrMap.update_self (m : StrMap) (k : String) (v : Option String) :
    m.update k v k = v := by
  simp [StrMap.update]

theorem StrMap.update_other (m : StrMap) (k q : String) (v : Option String) (h : q ≠ k) :
    m.update k v q = m q := by
  simp [StrMap.update, h]

/-- Without mirroring, the value stored in the resolved parameter copy by one
resolution step is the flat fallback chain over remote value, ambient value,
property default and literal default. -/
theorem resolveOne_envParams_nomirror (cfg : IETCDDriverConfigs) (ne : Option String)
    (st : DriverState) (p : String) (e : ManifestEntry)
    (h : cfg.overrideSysObj = false) :
    (resolveOne cfg ne st p e).1.envParams p =
      specFallback (st.store (etcdEntryName cfg ne p e)) (st.env p)
        ((getPropertySetting e).bind IETCDPropertyDefenition.defaultValue)
        (strDefaultVal e) := by
  unfold resolveOne specFallback
  simp [h, StrMap.update_self]

/-- With mirroring, the line-181 re-read of the coerced line-176 assignment
makes the stored value the coerced flat chain: the chain itself when it is
present, and the string rendered as undefined when the chain is absent. -/
theorem resolveOne_envParams_mirror (cfg : IETCDDriverConfigs) (ne : Option String)
    (st : DriverState) (p : String) (e : ManifestEntry)
    (h : cfg.overrideSysObj = true) :
    (resolveOne cfg ne st p e).1.envParams p =
      jsEnvAssign (specFallback (st.store (etcdEntryName cfg ne p e)) (st.env p)
        ((getPropertySetting e).bind IETCDPropertyDefenition.defaultValue)
        (strDefaultVal e)) := by
  unfold resolveOne specFallback
  simp [h, StrMap.update_self, jsOr_mirror_assign]

/-- Under mirroring, one resolution step writes the coerced flat fallback
chain into the ambient environment entry. -/
theorem resolveOne_env_mirror (cfg : IETCDDriverConfigs) (ne : Option String)
    (st : DriverState) (p : String) (e : ManifestEntry)
    (h : cfg.overrideSysObj = true) :
    (resolveOne cfg ne st p e).1.env p =
      jsEnvAssign (specFallback (st.store (etcdEntryName cfg ne p e)) (st.env p)
        ((getPropertySetting e).bind IETCDPropertyDefenition.defaultValue)
        (strDefaultVal e)) := by
  unfold resolveOne specFallback
  simp [h, StrMap.update_self]

/-- When the remote value at the entry key is already truthy, one resolution
step writes it into the resolved copy (and into the ambient environment when
mirroring), leaves the store and the put trace untouched, registers the watch
when watchKeys is set, and throws nothing. -/
theorem resolveOne_of_truthy (cfg : IETCDDriverConfigs) (ne : Option String)
    (st : DriverState) (p : String) (e : ManifestEntry)
    (h : jsTruthy (st.store (etcdEntryName cfg ne p e)) = true) :
    resolveOne cfg ne st p e =
      (⟨(if cfg.overrideSysObj then st.env.update p (st.store (etcdEntryName cfg ne p e)) else st.env),
        st.envParams.update p (st.store (etcdEntryName cfg ne p e)),
        st.store, st.puts,
        (if cfg.watchKeys then st.watches ++ [(etcdEntryName cfg ne p e, p)] else st.watches)⟩,
        none) := by
  unfold resolveOne
  cases hm : cfg.overrideSysObj <;>
    simp [hm, h, jsOr_of_truthy _ _ h, StrMap.update_self, jsEnvAssign_of_truthy _ h]

/-- Unfolding one non-throwing iteration of initializeProcess. -/
theorem initializeProcess_cons_ok (cfg : IETCDDriverConfigs) (ne : Option String)
    (pe : String × ManifestEntry) (M : List (String × ManifestEntry)) (st : DriverState)
    (h : (resolveOne cfg ne st pe.1 pe.2).2 = none) :
    initializeProcess cfg ne (pe :: M) st =
      initializeProcess cfg ne M (resolveOne cfg ne st pe.1 pe.2).1 := by
  rcases hp : resolveOne cfg ne st pe.1 pe.2 with ⟨st1, e⟩
  rw [hp] at h
  simp at h
  subst h
  simp [initializeProcess, hp]

/-- When the store already holds a truthy value at the key of every manifest
entry, initializeProcess leaves the store and the put trace untouched, throws
nothing, and the resolved copy of every parameter becomes the stored value at
the key of the parameter entry that survives the iteration. -/
theorem initializeProcess_of_truthy (cfg : IETCDDriverConfigs) (ne : Option String)
    (M : List (String × ManifestEntry)) (st : DriverState)
    (hall : ∀ pe ∈ M, jsTruthy (st.store (etcdEntryName cfg ne pe.1 pe.2)) = true) :
    (initializeProcess cfg ne M st).1.store = st.store ∧
    (initializeProcess cfg ne M st).1.puts = st.puts ∧
    (initializeProcess cfg ne M st).2 = none ∧
    ∀ q, (initializeProcess cfg ne M st).1.envParams q =
      (match lastDef M q with
        | some e => st.store (etcdEntryName cfg ne q e)
        | none => st.envParams q) := by
  induction M generalizing st with
  | nil =>
    refine ⟨rfl, rfl, rfl, fun q => ?_⟩
    simp [initializeProcess, lastDef]
  | cons pe M ih =>
    have hpe := hall pe (by simp)
    have hstep := resolveOne_of_truthy cfg ne st pe.1 pe.2 hpe
    have hstore : (resolveOne cfg ne st pe.1 pe.2).1.store = st.store := by rw [hstep]
    have hputs : (resolveOne cfg ne st pe.1 pe.2).1.puts = st.puts := by rw [hstep]
    have hthrow : (resolveOne cfg ne st pe.1 pe.2).2 = none := by rw [hstep]
    have henv : (resolveOne cfg ne st pe.1 pe.2).1.envParams =
        st.envParams.update pe.1 (st.store (etcdEntryName cfg ne pe.1 pe.2)) := by rw [hstep]
    have hM : ∀ qe ∈ M,
        jsTruthy ((resolveOne cfg ne st pe.1 pe.2).1.store (etcdEntryName cfg ne qe.1 qe.2)) = true := by
      intro qe hqe
      rw [hstore]
      exact hall qe (List.mem_cons_of_mem _ hqe)
    obtain ⟨ih1, ih2, ih3, ih4⟩ := ih (resolveOne cfg ne st pe.1 pe.2).1 hM
    rw [initializeProcess_cons_ok cfg ne pe M st hthrow]
    refine ⟨by rw [ih1, hstore], by rw [ih2, hputs], ih3, fun q => ?_⟩
    rw [ih4 q, hstore, henv]
    show (match lastDef M q with
        | some e => st.store (etcdEntryName cfg ne q e)
        | none => st.envParams.update pe.1 (st.store (etcdEntryName cfg ne pe.1 pe.2)) q) =
      (match lastDef (pe :: M) q with
        | some e => st.store (etcdEntryName cfg ne q e)
        | none => st.envParams q)
    cases hl : lastDef M q with
    | some e => simp [lastDef, hl]
    | none =>
      by_cases hq : q = pe.1
      · subst hq
        simp [lastDef, hl, StrMap.update_self]
      · have hq2 : pe.1 ≠ q := fun h => hq h.symm
        simp [lastDef, hl, hq2, StrMap.update_other _ _ _ _ hq]

/-! Claim theorems. -/

/-- Claim C1 counterexample: for the manifest entry that is the bare literal
string [object Object], with no remote value and no ambient value, the
fallback chain of the spec ends in the manifest literal and yields that
literal, but the code resolves the parameter to absent, because line 172 of
etcd.driver.ts compares the entry against the literal [object Object] and
discards it as a default. -/
theorem C1_counterexample :
    (resolveOne cfgPlain none st0 "P" (ManifestEntry.str "[object Object]")).1.envParams "P" = none ∧
    specFallback (st0.store (etcdEntryName cfgPlain none "P" (ManifestEntry.str "[object Object]")))
      (st0.env "P") none (specLiteralDefault (ManifestEntry.str "[object Object]")) =
      some "[object Object]" := by
  exact ⟨by decide, by decide⟩

/-- Claim C1 (amended): for every manifest entry the effective value stored in
the resolved parameter copy is the fallback chain with first non-empty
winning, in the order remote value, prior ambient value,
PropertyDefinition defaultValue, and the literal step of the code, which is
the manifest string unless it equals [object Object] and is the string
[object Object] for an object entry; when mirroring is enabled the chain goes
through the process.env string coercion, so a wholly absent chain is stored
as the string rendered as undefined.  In particular with remote R, ambient A
and default D all non-empty the effective value is R, with no remote it is A,
and with neither remote nor ambient it is D. -/
theorem C1_fallback_chain (cfg : IETCDDriverConfigs) (ne : Option String)
    (st : DriverState) (p : String) (e : ManifestEntry) :
    (cfg.overrideSysObj = false →
      (resolveOne cfg ne st p e).1.envParams p =
        specFallback (st.store (etcdEntryName cfg ne p e)) (st.env p)
          ((getPropertySetting e).bind IETCDPropertyDefenition.defaultValue)
          (strDefaultVal e)) ∧
    (cfg.overrideSysObj = true →
      (resolveOne cfg ne st p e).1.envParams p =
        jsEnvAssign (specFallback (st.store (etcdEntryName cfg ne p e)) (st.env p)
          ((getPropertySetting e).bind IETCDPropertyDefenition.defaultValue)
          (strDefaultVal e))) ∧
    (resolveOne cfgPlain none stR "P" entryD).1.envParams "P" = some "R" ∧
    (resolveOne cfgPlain none stA "P" entryD).1.envParams "P" = some "A" ∧
    (resolveOne cfgPlain none st0 "P" entryD).1.envParams "P" = some "D" := by
  exact ⟨resolveOne_envParams_nomirror cfg ne st p e,
    resolveOne_envParams_mirror cfg ne st p e, by decide, by decide, by decide⟩

/-- Witness for the amended claim C1: the plain chain without mirroring, and
the coerced chain with mirroring at the all-absent corner, where the program
stores the string rendered as undefined. -/
theorem C1_witness :
    (resolveOne cfgPlain none stA "P" entryD).1.envParams "P" =
      specFallback (stA.store (etcdEntryName cfgPlain none "P" entryD)) (stA.env "P")
        ((getPropertySetting entryD).bind IETCDPropertyDefenition.defaultValue)
        (strDefaultVal entryD) ∧
    (resolveOne cfgMirror none st0 "P" (ManifestEntry.str "[object Object]")).1.envParams "P" =
      jsEnvAssign (specFallback
        (st0.store (etcdEntryName cfgMirror none "P" (ManifestEntry.str "[object Object]")))
        (st0.env "P")
        ((getPropertySetting (ManifestEntry.str "[object Object]")).bind
          IETCDPropertyDefenition.defaultValue)
        (strDefaultVal (ManifestEntry.str "[object Object]"))) := by
  exact ⟨(C1_fallback_chain cfgPlain none stA "P" entryD).1 rfl,
    (C1_fallback_chain cfgMirror none st0 "P" (ManifestEntry.str "[object Object]")).2.1 rfl⟩

/-- Claim C2 counterexample: the claim asserts that the scope guard returns
false for the path /svc/param, but it returns true: the split on / has three
parts with a non-empty last part, which the guard accepts. -/
theorem C2_counterexample : isInScope "/svc/param" = true := by decide

/-- Claim C2 (amended): the scope guard returns true for /svc/param, true for
/svc/prod/param and false for /svc; in general a path whose split on / has
exactly three parts is in scope precisely when the last part is non-empty, so
a path with exactly two meaningful segments is in scope, and a path whose
split has four or more parts is in scope. -/
theorem C2_scope_guard (s : String) :
    (isInScope s = true ↔
      4 ≤ (jsSplit s '/').length ∨
        ((jsSplit s '/').length = 3 ∧ (jsSplit s '/').getLastD "" ≠ "")) ∧
    isInScope "/svc/param" = true ∧
    isInScope "/svc/prod/param" = true ∧
    isInScope "/svc" = false := by
  refine ⟨?_, by decide, by decide, by decide⟩
  unfold isInScope
  by_cases h1 : 3 ≤ (jsSplit s '/').length
  · by_cases h2 : (jsSplit s '/').length = 3
    · by_cases h3 : (jsSplit s '/').getLastD "" = ""
      · simp [h1, h2, h3]
      · simp [h1, h2, h3]
    · simp [h1, h2]
      omega
  · simp [h1]
    omega

/-- Claim C3 counterexample: with no directory name available, the precondition
check throws, but the catch block of the initialization entry point logs the
error and the returned promise resolves; the error does not propagate across
the call boundary, contradicting the claim. -/
theorem C3_counterexample :
    ( initializeDriver none cfgNoDir none manifest1 st0).rejected = none ∧
    ( initializeDriver none cfgNoDir none manifest1 st0).logged =
      ["initialize() ex: ETCD_SERVICE_NAME not found in environment variables"] := by
  exact ⟨by decide, by decide⟩

/-- Claim C3 (amended): a missing directory name or an empty manifest aborts
initialization before any parameter is resolved, but the thrown error is
caught and logged inside the entry point itself, so the call never rejects;
no error, precondition violations included, propagates to the caller. -/
theorem C3_no_propagation (esn : Option String) (cfg : IETCDDriverConfigs)
    (ne : Option String) (M : List (String × ManifestEntry)) (st : DriverState) :
    ( initializeDriver esn cfg ne M st).rejected = none ∧
    (jsTruthy (overrideDefaultConfigs esn cfg).dirname = false ∨ M = [] →
      ( initializeDriver esn cfg ne M st).state = st ∧
      ( initializeDriver esn cfg ne M st).logged ≠ []) := by
  constructor
  · unfold initializeDriver
    cases hd : jsTruthy (overrideDefaultConfigs esn cfg).dirname
    · simp [hd]
    · cases M with
      | nil => simp [hd]
      | cons pe M =>
        rcases hp : initializeProcess (overrideDefaultConfigs esn cfg) ne (pe :: M) st with ⟨st1, e⟩
        cases e <;> simp [hd, hp]
  · intro h
    unfold initializeDriver
    rcases h with h | h
    · simp [h]
    · subst h
      cases hd : jsTruthy (overrideDefaultConfigs esn cfg).dirname <;> simp [hd]

/-- Witness for the amended claim C3 at a concrete violating input. -/
theorem C3_witness :
    ( initializeDriver none cfgNoDir none manifest1 st0).rejected = none ∧
    ( initializeDriver none cfgNoDir none manifest1 st0).state = st0 ∧
    ( initializeDriver none cfgNoDir none manifest1 st0).logged ≠ [] := by
  have h := C3_no_propagation none cfgNoDir none manifest1 st0
  exact ⟨h.1, (h.2 (Or.inl (by decide))).1, (h.2 (Or.inl (by decide))).2⟩

/-- Claim C4 counterexample: at the end-to-end input of the spec, with an
object entry carrying an explicit remote path and no default value, no remote
value and no ambient value, the resolved parameter store does end with an
entry, the string [object Object], instead of no entry. -/
theorem C4_counterexample :
    (resolveOne cfgC4ex none st0 "MONGODB_URI" entryC4ex).1.envParams "MONGODB_URI" =
      some "[object Object]" ∧
    (resolveOne cfgC4ex none st0 "MONGODB_URI" entryC4ex).1.envParams "MONGODB_URI" ≠ none := by
  exact ⟨by decide, by decide⟩

/-- Claim C4 (amended): at the end-to-end input of the spec the effective
value is [object Object], the string conversion of the definition object; it
is stored in the resolved parameter copy and mirrored into the ambient
environment; no put is issued, but only because the explicit path mongodb_uri
is out of scope while out-of-scope writes are disallowed: with
overrideNotInScope set, a put of the value [object Object] is issued at that
path. -/
theorem C4_undefined_default :
    (resolveOne cfgC4ex none st0 "MONGODB_URI" entryC4ex).1.envParams "MONGODB_URI" =
      some "[object Object]" ∧
    (resolveOne cfgC4ex none st0 "MONGODB_URI" entryC4ex).1.env "MONGODB_URI" =
      some "[object Object]" ∧
    (resolveOne cfgC4ex none st0 "MONGODB_URI" entryC4ex).1.puts = [] ∧
    isInScope "mongodb_uri" = false ∧
    (resolveOne cfgC4ov none st0 "MONGODB_URI" entryC4ex).1.puts =
      [("mongodb_uri", some "[object Object]")] := by
  exact ⟨by decide, by decide, by decide, by decide, by decide⟩

/-- Claim C5: for an active watch, a put notification overwrites the resolved
parameter copy with the new value and, exactly when mirroring is enabled, the
ambient environment entry, and keeps the subscription active; a delete
notification removes the entry from the resolved copy and, exactly when
mirroring is enabled, from the ambient environment, deactivates the
subscription, and touches neither the store nor the put trace, so the deleted
key is never recreated by the watch. -/
theorem C5_watch_events (cfg : IETCDDriverConfigs) (st : DriverState)
    (w : WatchState) (v : String) (hw : w.active = true) :
    (applyWatchEvent cfg st w (WatchEvent.put v)).1.envParams w.propertyName = some v ∧
    (applyWatchEvent cfg st w (WatchEvent.put v)).1.env w.propertyName =
      (if cfg.overrideSysObj then some v else st.env w.propertyName) ∧
    (applyWatchEvent cfg st w (WatchEvent.put v)).2.active = true ∧
    (applyWatchEvent cfg st w WatchEvent.del).1.envParams w.propertyName = none ∧
    (applyWatchEvent cfg st w WatchEvent.del).1.env w.propertyName =
      (if cfg.overrideSysObj then none else st.env w.propertyName) ∧
    (applyWatchEvent cfg st w WatchEvent.del).2.active = false ∧
    (applyWatchEvent cfg st w WatchEvent.del).1.store = st.store ∧
    (applyWatchEvent cfg st w WatchEvent.del).1.puts = st.puts := by
  cases hm : cfg.overrideSysObj <;>
    simp [applyWatchEvent, updateEnv, hw, hm, StrMap.update_self]

/-- Witness for claim C5 at a concrete active watch with mirroring on. -/
theorem C5_witness :
    (applyWatchEvent cfgMirror st0 wActive (WatchEvent.put "v")).1.envParams wActive.propertyName = some "v" ∧
    (applyWatchEvent cfgMirror st0 wActive (WatchEvent.put "v")).1.env wActive.propertyName =
      (if cfgMirror.overrideSysObj then some "v" else st0.env wActive.propertyName) ∧
    (applyWatchEvent cfgMirror st0 wActive (WatchEvent.put "v")).2.active = true ∧
    (applyWatchEvent cfgMirror st0 wActive WatchEvent.del).1.envParams wActive.propertyName = none ∧
    (applyWatchEvent cfgMirror st0 wActive WatchEvent.del).1.env wActive.propertyName =
      (if cfgMirror.overrideSysObj then none else st0.env wActive.propertyName) ∧
    (applyWatchEvent cfgMirror st0 wActive WatchEvent.del).2.active = false ∧
    (applyWatchEvent cfgMirror st0 wActive WatchEvent.del).1.store = st0.store ∧
    (applyWatchEvent cfgMirror st0 wActive WatchEvent.del).1.puts = st0.puts :=
  C5_watch_events cfgMirror st0 wActive "v" rfl

/-- Claim C6: the derived key path is /directory/environment/parameter when
per-environment subdirectories are enabled and a runtime environment name is
available, and /directory/parameter otherwise; an explicit non-empty remote
path in a property definition is used instead of the derived path; and the
two concrete derivations of the spec hold. -/
theorem C6_key_derivation (cfg : IETCDDriverConfigs) (ne : Option String)
    (dir p path g : String) (d : IETCDPropertyDefenition)
    (hdir : cfg.dirname = some dir) (hpath : d.etcdPath = some path) (hne : path ≠ "") :
    (cfg.genEnvDirectories = false → generatedEtcdPath cfg ne p = "/" ++ dir ++ "/" ++ p) ∧
    (jsTruthy ne = false → generatedEtcdPath cfg ne p = "/" ++ dir ++ "/" ++ p) ∧
    (cfg.genEnvDirectories = true → ∀ envName : String, envName ≠ "" →
      generatedEtcdPath cfg (some envName) p = "/" ++ dir ++ "/" ++ envName ++ "/" ++ p) ∧
    etcdEntryNameOf (some d) g = path ∧
    etcdEntryNameOf none g = g ∧
    generatedEtcdPath cfgPlain none "MONGO_URI" = "/svc/MONGO_URI" ∧
    generatedEtcdPath cfgEnvDirs (some "prod") "MONGO_URI" = "/svc/prod/MONGO_URI" := by
  refine ⟨?_, ?_, ?_, ?_, ?_, by decide, by decide⟩
  · intro hg
    simp [generatedEtcdPath, getEnvironemntDir, hg, hdir, jsStr]
  · intro hne2
    simp [generatedEtcdPath, getEnvironemntDir, hne2, hdir, jsStr]
  · intro hg envName henv
    have ht : jsTruthy (some envName) = true := by simp [jsTruthy, henv]
    simp [generatedEtcdPath, getEnvironemntDir, hg, ht, hdir, jsStr, String.append_assoc]
  · have ht : jsTruthy (some path) = true := by simp [jsTruthy, hne]
    simp [etcdEntryNameOf, hpath, jsOr, ht]
  · simp [etcdEntryNameOf, jsOr, jsTruthy]

/-- Witness for claim C6 at the concrete derivations of the spec. -/
theorem C6_witness :
    generatedEtcdPath cfgPlain none "MONGO_URI" = "/svc/MONGO_URI" ∧
    generatedEtcdPath cfgEnvDirs (some "prod") "MONGO_URI" = "/svc/prod/MONGO_URI" ∧
    etcdEntryNameOf (some ⟨some "mypath", none⟩) "/g" = "mypath" := by
  have h := C6_key_derivation cfgPlain none "svc" "MONGO_URI" "mypath" "/g"
    ⟨some "mypath", none⟩ rfl rfl (by decide)
  exact ⟨h.2.2.2.2.2.1, h.2.2.2.2.2.2, h.2.2.2.1⟩

/-- Claim C7: with no remote value, generateMissingKeys on, an out-of-scope
key path and out-of-scope writes disallowed, no put is issued, the store is
untouched and nothing is thrown, while the effective value is still resolved
locally from the ambient environment or the defaults and stored in the
resolved parameter copy: the plain local chain without mirroring, the coerced
local chain with mirroring. -/
theorem C7_out_of_scope_skip (cfg : IETCDDriverConfigs) (ne : Option String)
    (st : DriverState) (p : String) (e : ManifestEntry)
    (h1 : jsTruthy (st.store (etcdEntryName cfg ne p e)) = false)
    (h2 : cfg.genKeys = true)
    (h3 : isInScope (etcdEntryName cfg ne p e) = false)
    (h4 : cfg.overrideNotInScope = false) :
    (resolveOne cfg ne st p e).1.puts = st.puts ∧
    (resolveOne cfg ne st p e).1.store = st.store ∧
    (resolveOne cfg ne st p e).2 = none ∧
    (cfg.overrideSysObj = false →
      (resolveOne cfg ne st p e).1.envParams p =
        jsOr (st.env p)
          (jsOr ((getPropertySetting e).bind IETCDPropertyDefenition.defaultValue)
            (strDefaultVal e))) ∧
    (cfg.overrideSysObj = true →
      (resolveOne cfg ne st p e).1.envParams p =
        jsEnvAssign (jsOr (st.env p)
          (jsOr ((getPropertySetting e).bind IETCDPropertyDefenition.defaultValue)
            (strDefaultVal e)))) := by
  refine ⟨?_, ?_, ?_, ?_, ?_⟩
  · unfold resolveOne
    simp [h3, h4]
  · unfold resolveOne
    simp [h3, h4]
  · unfold resolveOne
    simp [h3, h4]
  · intro hm
    rw [resolveOne_envParams_nomirror cfg ne st p e hm]
    unfold specFallback
    rw [jsOr_of_falsy _ _ h1]
  · intro hm
    rw [resolveOne_envParams_mirror cfg ne st p e hm]
    unfold specFallback
    rw [jsOr_of_falsy _ _ h1]

/-- Witness for claim C7 at concrete out-of-scope explicit paths, without and
with mirroring. -/
theorem C7_witness :
    ((resolveOne cfgGen none st0 "P" entryOut).1.puts = st0.puts ∧
      (resolveOne cfgGen none st0 "P" entryOut).1.store = st0.store ∧
      (resolveOne cfgGen none st0 "P" entryOut).2 = none ∧
      (resolveOne cfgGen none st0 "P" entryOut).1.envParams "P" =
        jsOr (st0.env "P")
          (jsOr ((getPropertySetting entryOut).bind IETCDPropertyDefenition.defaultValue)
            (strDefaultVal entryOut))) ∧
    (resolveOne cfgC4ex none st0 "P" entryOut).1.envParams "P" =
      jsEnvAssign (jsOr (st0.env "P")
        (jsOr ((getPropertySetting entryOut).bind IETCDPropertyDefenition.defaultValue)
          (strDefaultVal entryOut))) := by
  have h1 := C7_out_of_scope_skip cfgGen none st0 "P" entryOut
    (by decide) (by decide) (by decide) (by decide)
  have h2 := C7_out_of_scope_skip cfgC4ex none st0 "P" entryOut
    (by decide) (by decide) (by decide) (by decide)
  exact ⟨⟨h1.1, h1.2.1, h1.2.2.1, h1.2.2.2.1 rfl⟩, h2.2.2.2.2 rfl⟩

/-- Claim C8 counterexample: a generated key may hold the empty string.  With
the one-entry manifest mapping P to the empty literal, genKeys and
overrideSysObj on, the first run generates /svc/P with value the empty
string; the second identical run, against the store that now holds every
generated key, issues an additional identical put, because the empty string
read back at line 187 is falsy and re-triggers the generation write. -/
theorem C8_counterexample :
    (initializeProcess cfgC8ex none manifestEmptyStr st0).1.puts = [("/svc/P", some "")] ∧
    (initializeProcess cfgC8ex none manifestEmptyStr st0).1.store "/svc/P" = some "" ∧
    (initializeProcess cfgC8ex none manifestEmptyStr
        (initializeProcess cfgC8ex none manifestEmptyStr st0).1).1.puts =
      [("/svc/P", some ""), ("/svc/P", some "")] := by
  exact ⟨by decide, by decide, by decide⟩

/-- Claim C8 (amended): when the store already holds a truthy (non-empty)
value at every manifest key, a run of initializeProcess issues no put and
throws nothing, and a second identical run issues no further put and produces
a resolved parameter map identical to the first run; a generated key holding
the empty string is excluded, since the empty string is falsy and the
generation write then re-runs on every call. -/
theorem C8_idempotent (cfg : IETCDDriverConfigs) (ne : Option String)
    (M : List (String × ManifestEntry)) (st : DriverState)
    (hall : ∀ pe ∈ M, jsTruthy (st.store (etcdEntryName cfg ne pe.1 pe.2)) = true) :
    (initializeProcess cfg ne M st).1.puts = st.puts ∧
    (initializeProcess cfg ne M st).2 = none ∧
    (initializeProcess cfg ne M (initializeProcess cfg ne M st).1).1.puts =
      (initializeProcess cfg ne M st).1.puts ∧
    (initializeProcess cfg ne M (initializeProcess cfg ne M st).1).2 = none ∧
    (initializeProcess cfg ne M (initializeProcess cfg ne M st).1).1.envParams =
      (initializeProcess cfg ne M st).1.envParams := by
  obtain ⟨hs1, hp1, ht1, he1⟩ := initializeProcess_of_truthy cfg ne M st hall
  have hall2 : ∀ pe ∈ M,
      jsTruthy ((initializeProcess cfg ne M st).1.store (etcdEntryName cfg ne pe.1 pe.2)) = true := by
    intro pe hpe
    rw [hs1]
    exact hall pe hpe
  obtain ⟨hs2, hp2, ht2, he2⟩ :=
    initializeProcess_of_truthy cfg ne M (initializeProcess cfg ne M st).1 hall2
  refine ⟨hp1, ht1, hp2, ht2, funext fun q => ?_⟩
  rw [he2 q, hs1]
  cases hl : lastDef M q <;> simp only [he1 q, hl]

/-- Witness for the amended claim C8 at a concrete one-entry manifest whose
key the store already holds with a non-empty value. -/
theorem C8_witness :
    (initializeProcess cfgFull none manifestD stR).1.puts = stR.puts ∧
    (initializeProcess cfgFull none manifestD stR).2 = none ∧
    (initializeProcess cfgFull none manifestD (initializeProcess cfgFull none manifestD stR).1).1.puts =
      (initializeProcess cfgFull none manifestD stR).1.puts ∧
    (initializeProcess cfgFull none manifestD (initializeProcess cfgFull none manifestD stR).1).2 = none ∧
    (initializeProcess cfgFull none manifestD (initializeProcess cfgFull none manifestD stR).1).1.envParams =
      (initializeProcess cfgFull none manifestD stR).1.envParams := by
  refine C8_idempotent cfgFull none manifestD stR ?_
  intro pe hpe
  simp [manifestD] at hpe
  subst hpe
  decide

/-- Claim C9: for an object manifest entry the literal step of the fallback
chain is the string conversion of the object, [object Object]; with remote,
ambient and defaultValue all absent the effective value is [object Object] in
both mirror modes, mirrored into process.env when overrideSysObj is set and
pushed by the generation write when that write runs; conversely a bare string
literal equal to [object Object] is treated as no default, so the resolved
entry is absent without mirroring and is the coerced string rendered as
undefined with mirroring, exactly as for a parameter with no default at
all. -/
theorem C9_object_literal (cfg : IETCDDriverConfigs) (ne : Option String)
    (st : DriverState) (p q : String) (d : IETCDPropertyDefenition)
    (hdv : d.defaultValue = none)
    (hstore : st.store (etcdEntryName cfg ne p (ManifestEntry.obj d)) = none)
    (henv : st.env p = none)
    (hstore2 : st.store (etcdEntryName cfg ne q (ManifestEntry.str "[object Object]")) = none)
    (henv2 : st.env q = none) :
    strDefaultVal (ManifestEntry.obj d) = some "[object Object]" ∧
    (resolveOne cfg ne st p (ManifestEntry.obj d)).1.envParams p = some "[object Object]" ∧
    (cfg.overrideSysObj = true →
      (resolveOne cfg ne st p (ManifestEntry.obj d)).1.env p = some "[object Object]") ∧
    (cfg.genKeys = true →
      (cfg.overrideNotInScope || isInScope (etcdEntryName cfg ne p (ManifestEntry.obj d))) = true →
      cfg.overrideSysObj = true →
      (resolveOne cfg ne st p (ManifestEntry.obj d)).1.puts =
        st.puts ++ [(etcdEntryName cfg ne p (ManifestEntry.obj d), some "[object Object]")]) ∧
    strDefaultVal (ManifestEntry.str "[object Object]") = none ∧
    (cfg.overrideSysObj = false →
      (resolveOne cfg ne st q (ManifestEntry.str "[object Object]")).1.envParams q = none) ∧
    (cfg.overrideSysObj = true →
      (resolveOne cfg ne st q (ManifestEntry.str "[object Object]")).1.envParams q =
        some "undefined") := by
  have hchain : specFallback (st.store (etcdEntryName cfg ne p (ManifestEntry.obj d)))
      (st.env p)
      ((getPropertySetting (ManifestEntry.obj d)).bind IETCDPropertyDefenition.defaultValue)
      (strDefaultVal (ManifestEntry.obj d)) = some "[object Object]" := by
    simp [specFallback, hstore, henv, hdv, getPropertySetting, strDefaultVal, jsOr, jsTruthy]
  have hchain2 : specFallback (st.store (etcdEntryName cfg ne q (ManifestEntry.str "[object Object]")))
      (st.env q)
      ((getPropertySetting (ManifestEntry.str "[object Object]")).bind IETCDPropertyDefenition.defaultValue)
      (strDefaultVal (ManifestEntry.str "[object Object]")) = none := by
    simp [specFallback, hstore2, henv2, getPropertySetting, strDefaultVal, jsOr, jsTruthy]
  refine ⟨rfl, ?_, ?_, ?_, rfl, ?_, ?_⟩
  · cases hm : cfg.overrideSysObj
    · rw [resolveOne_envParams_nomirror cfg ne st p (ManifestEntry.obj d) hm]
      exact hchain
    · rw [resolveOne_envParams_mirror cfg ne st p (ManifestEntry.obj d) hm, hchain]
      rfl
  · intro hm
    rw [resolveOne_env_mirror cfg ne st p (ManifestEntry.obj d) hm, hchain]
    rfl
  · intro hk hscope hm
    unfold resolveOne
    simp [hk, hscope, hm, hstore, henv, hdv, getPropertySetting, strDefaultVal,
      StrMap.update_self, jsOr, jsTruthy, jsEnvAssign, jsStr]
  · intro hm
    rw [resolveOne_envParams_nomirror cfg ne st q (ManifestEntry.str "[object Object]") hm]
    exact hchain2
  · intro hm
    rw [resolveOne_envParams_mirror cfg ne st q (ManifestEntry.str "[object Object]") hm, hchain2]
    rfl

/-- Witness for claim C9 at a concrete object entry with no default value,
mirroring and generation on, and out-of-scope writes allowed; the bare
literal branch is witnessed without mirroring for absence and with mirroring
for the coerced string. -/
theorem C9_witness :
    strDefaultVal (ManifestEntry.obj ⟨none, none⟩) = some "[object Object]" ∧
    (resolveOne cfgC9ex none st0 "P" (ManifestEntry.obj ⟨none, none⟩)).1.envParams "P" =
      some "[object Object]" ∧
    (resolveOne cfgC9ex none st0 "P" (ManifestEntry.obj ⟨none, none⟩)).1.env "P" =
      some "[object Object]" ∧
    (resolveOne cfgC9ex none st0 "P" (ManifestEntry.obj ⟨none, none⟩)).1.puts =
      st0.puts ++ [(etcdEntryName cfgC9ex none "P" (ManifestEntry.obj ⟨none, none⟩),
        some "[object Object]")] ∧
    strDefaultVal (ManifestEntry.str "[object Object]") = none ∧
    (resolveOne cfgPlain none st0 "Q" (ManifestEntry.str "[object Object]")).1.envParams "Q" = none ∧
    (resolveOne cfgC9ex none st0 "Q" (ManifestEntry.str "[object Object]")).1.envParams "Q" =
      some "undefined" := by
  have h := C9_object_literal cfgC9ex none st0 "P" "Q" ⟨none, none⟩ rfl
    (by decide) (by decide) (by decide) (by decide)
  have h0 := C9_object_literal cfgPlain none st0 "P" "Q" ⟨none, none⟩ rfl
    (by decide) (by decide) (by decide) (by decide)
  exact ⟨h.1, h.2.1, h.2.2.1 rfl, h.2.2.2.1 rfl (by decide) rfl, h.2.2.2.2.1,
    h0.2.2.2.2.2.1 rfl, h.2.2.2.2.2.2 rfl⟩

/-- Claim C10: with mirroring enabled, after one initial resolution step the
ambient environment entry and the resolved copy entry for the parameter agree;
after a put notification on an active watch they agree; after a delete
notification on an active watch both are absent. -/
theorem C10_mirror_invariant (cfg : IETCDDriverConfigs) (ne : Option String)
    (st : DriverState) (p v : String) (e : ManifestEntry) (w : WatchState)
    (hm : cfg.overrideSysObj = true) :
    (resolveOne cfg ne st p e).1.env p = (resolveOne cfg ne st p e).1.envParams p ∧
    (w.active = true →
      (applyWatchEvent cfg st w (WatchEvent.put v)).1.env w.propertyName =
        (applyWatchEvent cfg st w (WatchEvent.put v)).1.envParams w.propertyName) ∧
    (w.active = true →
      (applyWatchEvent cfg st w WatchEvent.del).1.env w.propertyName = none ∧
      (applyWatchEvent cfg st w WatchEvent.del).1.envParams w.propertyName = none) := by
  refine ⟨?_, ?_, ?_⟩
  · rw [resolveOne_env_mirror cfg ne st p e hm, resolveOne_envParams_mirror cfg ne st p e hm]
  · intro hw
    simp [applyWatchEvent, updateEnv, hw, hm, StrMap.update_self]
  · intro hw
    simp [applyWatchEvent, hw, hm, StrMap.update_self]

/-- Witness for claim C10 at a concrete mirrored configuration. -/
theorem C10_witness :
    (resolveOne cfgMirror none st0 "P" entryD).1.env "P" =
      (resolveOne cfgMirror none st0 "P" entryD).1.envParams "P" ∧
    (applyWatchEvent cfgMirror st0 wActive (WatchEvent.put "v")).1.env wActive.propertyName =
      (applyWatchEvent cfgMirror st0 wActive (WatchEvent.put "v")).1.envParams wActive.propertyName ∧
    ((applyWatchEvent cfgMirror st0 wActive WatchEvent.del).1.env wActive.propertyName = none ∧
      (applyWatchEvent cfgMirror st0 wActive WatchEvent.del).1.envParams wActive.propertyName = none) := by
  have h := C10_mirror_invariant cfgMirror none st0 "P" "v" entryD wActive rfl
  exact ⟨h.1, h.2.1 rfl, h.2.2 rfl⟩

end NextChat
